import Mathlib

/-
Verification of the TruE-MAN resource-sharing ledger.

The on-chain escrow ledger (contracts/contract1/contract1.sol, Solidity ^0.8.17)
is embedded as pure Lean functions over an explicit ledger state.  Addresses and
uint256 values are modelled as Nat; Solidity 0.8 checked arithmetic is modelled
by explicit bound checks against 2^256 that fail with an overflow error, and a
reverting transaction is modelled by an Except error whose caller keeps the old
state (applyOp).  The external low-level value transfer performed by
confirmRequest/cancelRequest may be rejected by the recipient; this is modelled
by a Boolean parameter sendOk for the outcome of the call.

The admin-panel sync bridge (panel-admin server, fetchWithRetry and the
POST /api/confirm handler) is embedded with attempt outcomes given by a
function from attempt index to Bool, recording the number of attempts made and
the backoff delays slept.
-/

namespace TrueMan

/-- Modulus of the EVM word size: uint256 values are the naturals below this. -/
def UINT_MAX : Nat := 2 ^ 256

/-- Wei value of the Solidity literal `0.00012 ether` from createRequest. -/
def ratePerMinuteWei : Nat := 120000000000000

/-- Request lifecycle status, enum Status { Created, Confirmed, Cancelled }. -/
inductive Status
  | created
  | confirmed
  | cancelled
deriving DecidableEq

/-- The struct Request of contract1.sol. -/
structure Request where
  id : Nat
  buyerOperator : Nat
  numUsers : Nat
  durationMins : Nat
  orderDetails : Nat
  status : Status
  createdAt : Nat
  amountPaid : Nat
deriving DecidableEq

/-- The zero-initialised Request a Solidity mapping returns for an unwritten
key: all fields zero, and status is the first enum member, Created. -/
def defaultRequest : Request :=
  { id := 0, buyerOperator := 0, numUsers := 0, durationMins := 0,
    orderDetails := 0, status := Status.created, createdAt := 0, amountPaid := 0 }

/-- The contract storage: deployerOperator, nextRequestId and the requests
mapping (total function with the zero-initialised default). -/
structure LedgerState where
  deployerOperator : Nat
  nextRequestId : Nat
  requests : Nat → Request

/-- Storage right after the constructor ran: nextRequestId = 0, empty mapping. -/
def initialState (deployer : Nat) : LedgerState :=
  { deployerOperator := deployer, nextRequestId := 0,
    requests := fun _ => defaultRequest }

/-- An outgoing ETH value transfer performed via a low-level call. -/
structure Transfer where
  recipient : Nat
  amount : Nat
deriving DecidableEq

/-- The revert reasons of contract1.sol (plus the checked-arithmetic panic). -/
inductive CError
  | invalidBuyer
  | insufficientPayment
  | unauthorized
  | stateConflict
  | transferFailed
  | overflow
deriving DecidableEq

/-- Write one slot of the requests mapping. -/
def setRequest (s : LedgerState) (id : Nat) (r : Request) : LedgerState :=
  { s with requests := Function.update s.requests id r }

/-- The pricing expression of createRequest:
`durationMins * numUsers * 0.00012 ether`. -/
def requiredPayment (durationMins numUsers : Nat) : Nat :=
  durationMins * numUsers * ratePerMinuteWei

/-- The fresh record written by createRequest. -/
def newRequest (id buyer numUsers durationMins orderDetails msgValue timestamp : Nat) :
    Request :=
  { id := id, buyerOperator := buyer, numUsers := numUsers,
    durationMins := durationMins, orderDetails := orderDetails,
    status := Status.created, createdAt := timestamp, amountPaid := msgValue }

/-- The post-state of a successful createRequest: the new record is stored at
nextRequestId, which is then incremented. -/
def createdState (s : LedgerState) (buyer numUsers durationMins orderDetails msgValue timestamp : Nat) :
    LedgerState :=
  { s with nextRequestId := s.nextRequestId + 1,
           requests := Function.update s.requests s.nextRequestId
             (newRequest s.nextRequestId buyer numUsers durationMins orderDetails msgValue timestamp) }

/-- createRequest of contract1.sol.  Checks, in source order: non-zero buyer;
the (checked) computation of requiredPayment; msg.value at least the required
payment; then stores the record at id nextRequestId++ (checked increment).
Returns the new id. -/
def createRequest (s : LedgerState) (buyer numUsers durationMins orderDetails msgValue timestamp : Nat) :
    Except CError (LedgerState × Nat) :=
  if buyer = 0 then .error .invalidBuyer
  else if UINT_MAX ≤ durationMins * numUsers then .error .overflow
  else if UINT_MAX ≤ requiredPayment durationMins numUsers then .error .overflow
  else if msgValue < requiredPayment durationMins numUsers then .error .insufficientPayment
  else if UINT_MAX ≤ s.nextRequestId + 1 then .error .overflow
  else .ok (createdState s buyer numUsers durationMins orderDetails msgValue timestamp,
            s.nextRequestId)

/-- confirmRequest of contract1.sol: onlyDeployer; requires status Created;
sends amountPaid to the deployer operator (reverting when the recipient
rejects the call); then marks the request Confirmed. -/
def confirmRequest (s : LedgerState) (caller id : Nat) (sendOk : Bool) :
    Except CError (LedgerState × List Transfer) :=
  if caller ≠ s.deployerOperator then .error .unauthorized
  else if (s.requests id).status ≠ Status.created then .error .stateConflict
  else if sendOk = false then .error .transferFailed
  else .ok (setRequest s id { s.requests id with status := Status.confirmed },
            [{ recipient := s.deployerOperator, amount := (s.requests id).amountPaid }])

/-- cancelRequest of contract1.sol: onlyDeployer; requires status Created;
refunds amountPaid to the buyer, but only attempts the transfer when
amountPaid > 0 (reverting when the recipient rejects it); then marks the
request Cancelled.  The reason string is only emitted with the event. -/
def cancelRequest (s : LedgerState) (caller id : Nat) (reason : String) (sendOk : Bool) :
    Except CError (LedgerState × List Transfer) :=
  if caller ≠ s.deployerOperator then .error .unauthorized
  else if (s.requests id).status ≠ Status.created then .error .stateConflict
  else if 0 < (s.requests id).amountPaid ∧ sendOk = false then .error .transferFailed
  else .ok (setRequest s id { s.requests id with status := Status.cancelled },
            if (s.requests id).amountPaid = 0 then []
            else [{ recipient := (s.requests id).buyerOperator,
                    amount := (s.requests id).amountPaid }])

/-- Shared body of the three status views: scan ids 0..nextRequestId-1 in
ascending order and collect the requests with the wanted status. -/
def listByStatus (s : LedgerState) (st : Status) : List Request :=
  ((List.range s.nextRequestId).map s.requests).filter fun r => decide (r.status = st)

/-- getPendingRequests of contract1.sol (onlyDeployer view). -/
def getPendingRequests (s : LedgerState) (caller : Nat) :
    Except CError (List Request) :=
  if caller ≠ s.deployerOperator then .error .unauthorized
  else .ok (listByStatus s Status.created)

/-- getConfirmedRequests of contract1.sol (onlyDeployer view). -/
def getConfirmedRequests (s : LedgerState) (caller : Nat) :
    Except CError (List Request) :=
  if caller ≠ s.deployerOperator then .error .unauthorized
  else .ok (listByStatus s Status.confirmed)

/-- getCancelledRequests of contract1.sol (onlyDeployer view). -/
def getCancelledRequests (s : LedgerState) (caller : Nat) :
    Except CError (List Request) :=
  if caller ≠ s.deployerOperator then .error .unauthorized
  else .ok (listByStatus s Status.cancelled)

/-- One external transaction against the contract. -/
inductive Op
  | create (buyer numUsers durationMins orderDetails msgValue timestamp : Nat)
  | confirm (caller id : Nat) (sendOk : Bool)
  | cancel (caller id : Nat) (reason : String) (sendOk : Bool)

/-- EVM transaction semantics: a reverting call leaves storage unchanged. -/
def applyOp (s : LedgerState) (op : Op) : LedgerState :=
  match op with
  | .create buyer u d od v t =>
    match createRequest s buyer u d od v t with
    | .ok p => p.1
    | .error _ => s
  | .confirm c id b =>
    match confirmRequest s c id b with
    | .ok p => p.1
    | .error _ => s
  | .cancel c id r b =>
    match cancelRequest s c id r b with
    | .ok p => p.1
    | .error _ => s

/-- The value transfers performed by a transaction (none when it reverts). -/
def opTransfers (s : LedgerState) (op : Op) : List Transfer :=
  match op with
  | .create _ _ _ _ _ _ => []
  | .confirm c id b =>
    match confirmRequest s c id b with
    | .ok p => p.2
    | .error _ => []
  | .cancel c id r b =>
    match cancelRequest s c id r b with
    | .ok p => p.2
    | .error _ => []

/-- Run a list of transactions from a state. -/
def run (s : LedgerState) (ops : List Op) : LedgerState :=
  ops.foldl applyOp s

/-- Number of steps of a run in which the status of slot id leaves Created. -/
def releaseCount : LedgerState → Nat → List Op → Nat
  | _, _, [] => 0
  | s, id, op :: rest =>
    (if (s.requests id).status = Status.created ∧
        ((applyOp s op).requests id).status ≠ Status.created then 1 else 0)
    + releaseCount (applyOp s op) id rest

/-- Every allocated slot stores its own id (createRequest writes id := id). -/
def IdsAssigned (s : LedgerState) : Prop :=
  ∀ i, i < s.nextRequestId → (s.requests i).id = i

/-! Basic facts about the embedding. -/

theorem UINT_MAX_pos : 0 < UINT_MAX := by
  simp [UINT_MAX]

theorem setRequest_requests_self (s : LedgerState) (id : Nat) (r : Request) :
    (setRequest s id r).requests id = r := by
  simp [setRequest]

theorem setRequest_requests_ne (s : LedgerState) (id : Nat) (r : Request)
    (j : Nat) (h : j ≠ id) : (setRequest s id r).requests j = s.requests j := by
  simp [setRequest, Function.update_noteq h]

theorem setRequest_nextRequestId (s : LedgerState) (id : Nat) (r : Request) :
    (setRequest s id r).nextRequestId = s.nextRequestId := rfl

theorem setRequest_deployer (s : LedgerState) (id : Nat) (r : Request) :
    (setRequest s id r).deployerOperator = s.deployerOperator := rfl

/-- A successful confirm: owner caller, Created status, accepted transfer. -/
theorem confirm_ok_eq (s : LedgerState) (caller id : Nat)
    (hc : caller = s.deployerOperator)
    (hst : (s.requests id).status = Status.created) :
    confirmRequest s caller id true =
      .ok (setRequest s id { s.requests id with status := Status.confirmed },
           [{ recipient := s.deployerOperator, amount := (s.requests id).amountPaid }]) := by
  simp [confirmRequest, hc, hst]

/-- A successful cancel: owner caller, Created status, and either a zero escrow
(no transfer attempted) or an accepted refund transfer. -/
theorem cancel_ok_eq (s : LedgerState) (caller id : Nat) (reason : String)
    (sendOk : Bool)
    (hc : caller = s.deployerOperator)
    (hst : (s.requests id).status = Status.created)
    (hsend : (s.requests id).amountPaid = 0 ∨ sendOk = true) :
    cancelRequest s caller id reason sendOk =
      .ok (setRequest s id { s.requests id with status := Status.cancelled },
           if (s.requests id).amountPaid = 0 then []
           else [{ recipient := (s.requests id).buyerOperator,
                   amount := (s.requests id).amountPaid }]) := by
  rcases hsend with h0 | hTrue
  · simp [cancelRequest, hc, hst, h0]
  · simp [cancelRequest, hc, hst, hTrue]

/-! Claim theorems. -/

/-- Claim C10 (confirmed): the status list queries getPendingRequests,
getConfirmedRequests and getCancelledRequests carry the onlyDeployer modifier,
so every caller other than the deployer operator gets the authorization
error. -/
theorem status_queries_owner_only (s : LedgerState) (caller : Nat)
    (h : caller ≠ s.deployerOperator) :
    getPendingRequests s caller = .error .unauthorized ∧
    getConfirmedRequests s caller = .error .unauthorized ∧
    getCancelledRequests s caller = .error .unauthorized := by
  simp [getPendingRequests, getConfirmedRequests, getCancelledRequests, h]

theorem status_queries_owner_only_witness :
    getPendingRequests (initialState 1) 2 = .error .unauthorized ∧
    getConfirmedRequests (initialState 1) 2 = .error .unauthorized ∧
    getCancelledRequests (initialState 1) 2 = .error .unauthorized :=
  status_queries_owner_only (initialState 1) 2 (by decide)

/-- Claim C8 (confirmed): the requests mapping returns the zero-initialised
default record for any id never written, and that record has status Created
(the first enum member).  Hence for an id that was never created (the slot is
still the mapping default, as is the case for every id at or above
nextRequestId that no operation has touched), the owner's confirmRequest
succeeds, transferring 0 and marking the nonexistent request Confirmed, and
the owner's cancelRequest succeeds (no refund transfer is even attempted, so
the call outcome is irrelevant), marking it Cancelled; neither fails with a
not-found or state-conflict error. -/
theorem nonexistent_id_confirm_cancel_succeed (s : LedgerState)
    (caller id : Nat) (reason : String)
    (hcaller : caller = s.deployerOperator)
    (hge : s.nextRequestId ≤ id)
    (hdef : s.requests id = defaultRequest) :
    (s.requests id).status = Status.created ∧
    confirmRequest s caller id true =
      .ok (setRequest s id { defaultRequest with status := Status.confirmed },
           [{ recipient := s.deployerOperator, amount := 0 }]) ∧
    ((setRequest s id { defaultRequest with status := Status.confirmed }).requests id).status
      = Status.confirmed ∧
    (∀ b : Bool, cancelRequest s caller id reason b =
      .ok (setRequest s id { defaultRequest with status := Status.cancelled }, [])) ∧
    ((setRequest s id { defaultRequest with status := Status.cancelled }).requests id).status
      = Status.cancelled := by
  refine ⟨by rw [hdef]; rfl, ?_, ?_, ?_, ?_⟩
  · rw [confirm_ok_eq s caller id hcaller (by rw [hdef]; rfl), hdef]
    rfl
  · rw [setRequest_requests_self]
  · intro b
    rw [cancel_ok_eq s caller id reason b hcaller (by rw [hdef]; rfl)
        (Or.inl (by rw [hdef]; rfl)), hdef]
    rfl
  · rw [setRequest_requests_self]

theorem nonexistent_id_confirm_cancel_succeed_witness :
    confirmRequest (initialState 1) 1 7 true =
      .ok (setRequest (initialState 1) 7 { defaultRequest with status := Status.confirmed },
           [{ recipient := 1, amount := 0 }]) ∧
    cancelRequest (initialState 1) 1 7 "expired" false =
      .ok (setRequest (initialState 1) 7 { defaultRequest with status := Status.cancelled }, []) := by
  have h := nonexistent_id_confirm_cancel_succeed (initialState 1) 1 7 "expired"
    rfl (by decide) rfl
  exact ⟨h.2.1, h.2.2.2.1 false⟩

/-- Claim C9 (confirmed): createRequest never requires numUsers or
durationMins to be positive.  When either is zero the required payment is
zero, so (with a non-zero requester and a ledger that can still allocate an
id) a call with zero payment succeeds and stores a request with zero escrow;
a later cancelRequest by the owner finalizes that request as Cancelled while
attempting no refund transfer at all (empty transfer list, any call
outcome). -/
theorem zero_required_payment_create_cancel (s : LedgerState)
    (buyer u d od t : Nat) (reason : String) (b : Bool)
    (hbuyer : buyer ≠ 0) (hz : u = 0 ∨ d = 0)
    (hnext : s.nextRequestId + 1 < UINT_MAX) :
    requiredPayment d u = 0 ∧
    createRequest s buyer u d od 0 t =
      .ok (createdState s buyer u d od 0 t, s.nextRequestId) ∧
    ((createdState s buyer u d od 0 t).requests s.nextRequestId).amountPaid = 0 ∧
    ((createdState s buyer u d od 0 t).requests s.nextRequestId).status = Status.created ∧
    cancelRequest (createdState s buyer u d od 0 t)
        (createdState s buyer u d od 0 t).deployerOperator s.nextRequestId reason b =
      .ok (setRequest (createdState s buyer u d od 0 t) s.nextRequestId
             { (createdState s buyer u d od 0 t).requests s.nextRequestId with
               status := Status.cancelled },
           []) := by
  have hdu : d * u = 0 := by
    rcases hz with h | h <;> simp [h]
  have hreq : requiredPayment d u = 0 := by
    simp [requiredPayment, hdu]
  have hslot : (createdState s buyer u d od 0 t).requests s.nextRequestId =
      newRequest s.nextRequestId buyer u d od 0 t := by
    simp [createdState]
  refine ⟨hreq, ?_, ?_, ?_, ?_⟩
  · have h2 : ¬ (UINT_MAX ≤ d * u) := by rw [hdu]; omega
    have h3 : ¬ (UINT_MAX ≤ requiredPayment d u) := by rw [hreq]; omega
    have h4 : ¬ ((0 : Nat) < requiredPayment d u) := by rw [hreq]; omega
    have h5 : ¬ (UINT_MAX ≤ s.nextRequestId + 1) := by omega
    simp [createRequest, hbuyer, h2, h3, h4, h5]
  · rw [hslot]; rfl
  · rw [hslot]; rfl
  · rw [cancel_ok_eq _ _ _ reason b rfl (by rw [hslot]; rfl)
        (Or.inl (by rw [hslot]; rfl)), hslot]
    rfl

theorem zero_required_payment_create_cancel_witness :
    requiredPayment 5 0 = 0 ∧
    createRequest (initialState 1) 7 0 5 0 0 0 =
      .ok (createdState (initialState 1) 7 0 5 0 0 0, 0) ∧
    cancelRequest (createdState (initialState 1) 7 0 5 0 0 0) 1 0 "no demand" false =
      .ok (setRequest (createdState (initialState 1) 7 0 5 0 0 0) 0
             { (createdState (initialState 1) 7 0 5 0 0 0).requests 0 with
               status := Status.cancelled },
           []) := by
  have h := zero_required_payment_create_cancel (initialState 1) 7 0 5 0 0
    "no demand" false (by decide) (Or.inl rfl) (by decide)
  exact ⟨h.1, h.2.1, h.2.2.2.2⟩

/-! createRequest pricing lemmas. -/

theorem du_le_required (d u : Nat) : d * u ≤ requiredPayment d u := by
  have h1 : (1 : Nat) ≤ ratePerMinuteWei := by norm_num [ratePerMinuteWei]
  have h2 := Nat.mul_le_mul (Nat.le_refl (d * u)) h1
  simpa [requiredPayment] using h2

/-- A successful create: non-zero buyer, no checked-arithmetic overflow,
payment at least the required amount, and a free id. -/
theorem create_ok_eq (s : LedgerState) (buyer u d od v t : Nat)
    (hb : buyer ≠ 0) (hov : requiredPayment d u < UINT_MAX)
    (hv : requiredPayment d u ≤ v) (hn : s.nextRequestId + 1 < UINT_MAX) :
    createRequest s buyer u d od v t =
      .ok (createdState s buyer u d od v t, s.nextRequestId) := by
  have hdu := du_le_required d u
  have h2 : ¬ (UINT_MAX ≤ d * u) := by omega
  have h3 : ¬ (UINT_MAX ≤ requiredPayment d u) := by omega
  have h4 : ¬ (v < requiredPayment d u) := by omega
  have h5 : ¬ (UINT_MAX ≤ s.nextRequestId + 1) := by omega
  simp [createRequest, hb, h2, h3, h4, h5]

/-- If createRequest reports InsufficientPayment, the payment was below the
required amount (that branch is only reached under its own guard). -/
theorem create_insufficient_imp (s : LedgerState) (buyer u d od v t : Nat)
    (h : createRequest s buyer u d od v t = .error .insufficientPayment) :
    v < requiredPayment d u := by
  by_cases h1 : buyer = 0
  · simp [createRequest, h1] at h
  by_cases h2 : UINT_MAX ≤ d * u
  · simp [createRequest, h1, h2] at h
  by_cases h3 : UINT_MAX ≤ requiredPayment d u
  · simp [createRequest, h1, h2, h3] at h
  by_cases h4 : v < requiredPayment d u
  · exact h4
  by_cases h5 : UINT_MAX ≤ s.nextRequestId + 1
  · simp [createRequest, h1, h2, h3, h4, h5] at h
  · simp [createRequest, h1, h2, h3, h4, h5] at h

/-- If createRequest succeeds, the payment reached the required amount. -/
theorem create_ok_imp (s : LedgerState) (buyer u d od v t : Nat)
    (p : LedgerState × Nat)
    (h : createRequest s buyer u d od v t = .ok p) :
    requiredPayment d u ≤ v := by
  by_cases h1 : buyer = 0
  · simp [createRequest, h1] at h
  by_cases h2 : UINT_MAX ≤ d * u
  · simp [createRequest, h1, h2] at h
  by_cases h3 : UINT_MAX ≤ requiredPayment d u
  · simp [createRequest, h1, h2, h3] at h
  by_cases h4 : v < requiredPayment d u
  · simp [createRequest, h1, h2, h3, h4] at h
  · omega

/-- Claim C3 (corrected): with a valid (non-zero) requester and a price whose
checked computation does not overflow, createRequest fails with
InsufficientPayment exactly when payment < ratePerMinute x durationMins x
numUsers, in exact wei arithmetic with rate 0.00012 ether; for numUsers = 2,
durationMins = 60 the required payment is 0.0144 ether, submitting 0.01 ether
fails with InsufficientPayment and submitting 0.0144 ether succeeds with a
request in status Created.  The claim as frozen omits the requester
qualification: with the zero address as requester the code fails with the
invalid-requester error even though the payment is also insufficient (see the
counterexample). -/
theorem insufficient_payment_exact_for_valid_requester
    (s : LedgerState) (buyer u d od v t : Nat)
    (hb : buyer ≠ 0) (hov : requiredPayment d u < UINT_MAX) :
    (createRequest s buyer u d od v t = .error .insufficientPayment ↔
      v < requiredPayment d u) ∧
    requiredPayment 60 2 = 14400000000000000 ∧
    createRequest (initialState 1) 5 2 60 0 10000000000000000 0 =
      .error .insufficientPayment ∧
    createRequest (initialState 1) 5 2 60 0 14400000000000000 0 =
      .ok (createdState (initialState 1) 5 2 60 0 14400000000000000 0, 0) ∧
    ((createdState (initialState 1) 5 2 60 0 14400000000000000 0).requests 0).status
      = Status.created := by
  refine ⟨⟨create_insufficient_imp s buyer u d od v t, ?_⟩, by decide, rfl, rfl, rfl⟩
  intro hv
  have hdu := du_le_required d u
  have h2 : ¬ (UINT_MAX ≤ d * u) := by omega
  have h3 : ¬ (UINT_MAX ≤ requiredPayment d u) := by omega
  simp [createRequest, hb, h2, h3, hv]

theorem insufficient_payment_exact_witness :
    (createRequest (initialState 1) 5 2 60 0 10000000000000000 0 =
        .error .insufficientPayment ↔
      10000000000000000 < requiredPayment 60 2) ∧
    requiredPayment 60 2 = 14400000000000000 := by
  have h := insufficient_payment_exact_for_valid_requester
    (initialState 1) 5 2 60 0 10000000000000000 0 (by decide) (by decide)
  exact ⟨h.1, h.2.1⟩

/-- Claim C3 counterexample: with the zero address as requester and zero
payment for a 1-user/1-minute request, the payment is below the required
amount, yet createRequest fails with the invalid-requester error, not with
InsufficientPayment — refuting the frozen claim's "fails with
InsufficientPayment exactly when payment < rate x duration x users". -/
theorem insufficient_payment_not_exact_counterexample :
    createRequest (initialState 1) 0 1 1 0 0 0 = .error .invalidBuyer ∧
    0 < requiredPayment 1 1 ∧
    ¬ (createRequest (initialState 1) 0 1 1 0 0 0 = .error .insufficientPayment) := by
  have hx : createRequest (initialState 1) 0 1 1 0 0 0 = .error .invalidBuyer := rfl
  refine ⟨hx, by norm_num [requiredPayment, ratePerMinuteWei], fun h => ?_⟩
  rw [hx] at h
  simp at h

/-- Claim C5 (confirmed): the required payment computed by createRequest is
durationMins x numUsers x ratePerMinuteWei, which doubles when either
durationMins or numUsers doubles; acceptance is a threshold: a payment below
the required amount is always rejected (never yields a created request), and
with a valid requester a uint256 payment at or above the required amount is
always accepted (on a ledger that can still allocate an id), yielding a
request in status Created. -/
theorem requiredPayment_linear_threshold (s : LedgerState)
    (buyer u d od v t : Nat) :
    requiredPayment (2 * d) u = 2 * requiredPayment d u ∧
    requiredPayment d (2 * u) = 2 * requiredPayment d u ∧
    (v < requiredPayment d u → ∀ p, ¬ (createRequest s buyer u d od v t = .ok p)) ∧
    (buyer ≠ 0 → requiredPayment d u ≤ v → v < UINT_MAX →
      s.nextRequestId + 1 < UINT_MAX →
      createRequest s buyer u d od v t =
        .ok (createdState s buyer u d od v t, s.nextRequestId) ∧
      ((createdState s buyer u d od v t).requests s.nextRequestId).status
        = Status.created) := by
  refine ⟨by simp [requiredPayment]; ring, by simp [requiredPayment]; ring, ?_, ?_⟩
  · intro hv p hok
    exact absurd (create_ok_imp s buyer u d od v t p hok) (by omega)
  · intro hb hv hvmax hn
    refine ⟨create_ok_eq s buyer u d od v t hb (by omega) hv hn, ?_⟩
    simp [createdState, newRequest]

theorem requiredPayment_linear_threshold_witness :
    requiredPayment (2 * 60) 2 = 2 * requiredPayment 60 2 ∧
    ¬ (createRequest (initialState 1) 5 2 60 0 10000000000000000 0 =
        .ok (createdState (initialState 1) 5 2 60 0 10000000000000000 0, 0)) ∧
    createRequest (initialState 1) 5 2 60 0 14400000000000000 0 =
      .ok (createdState (initialState 1) 5 2 60 0 14400000000000000 0, 0) := by
  have h10 := requiredPayment_linear_threshold (initialState 1) 5 2 60 0
    10000000000000000 0
  have h144 := requiredPayment_linear_threshold (initialState 1) 5 2 60 0
    14400000000000000 0
  exact ⟨h10.1,
    h10.2.2.1 (by decide) (createdState (initialState 1) 5 2 60 0 10000000000000000 0, 0),
    (h144.2.2.2 (by decide) (by decide) (by decide) (by decide)).1⟩

/-! Destructor lemmas: what a successful transaction must look like. -/

theorem createdState_requests_self (s : LedgerState) (b u d od v t : Nat) :
    (createdState s b u d od v t).requests s.nextRequestId =
      newRequest s.nextRequestId b u d od v t := by
  simp [createdState]

theorem createdState_requests_ne (s : LedgerState) (b u d od v t j : Nat)
    (h : j ≠ s.nextRequestId) :
    (createdState s b u d od v t).requests j = s.requests j := by
  simp [createdState, Function.update_noteq h]

theorem create_ok_dest (s : LedgerState) (b u d od v t : Nat)
    (p : LedgerState × Nat) (h : createRequest s b u d od v t = .ok p) :
    p = (createdState s b u d od v t, s.nextRequestId) := by
  unfold createRequest at h
  split at h
  · exact absurd h (by simp)
  split at h
  · exact absurd h (by simp)
  split at h
  · exact absurd h (by simp)
  split at h
  · exact absurd h (by simp)
  split at h
  · exact absurd h (by simp)
  · exact (Except.ok.inj h).symm

theorem confirm_ok_dest (s : LedgerState) (c id : Nat) (b : Bool)
    (p : LedgerState × List Transfer) (h : confirmRequest s c id b = .ok p) :
    c = s.deployerOperator ∧ (s.requests id).status = Status.created ∧ b = true ∧
    p = (setRequest s id { s.requests id with status := Status.confirmed },
         [{ recipient := s.deployerOperator, amount := (s.requests id).amountPaid }]) := by
  unfold confirmRequest at h
  by_cases h1 : c = s.deployerOperator
  · by_cases h2 : (s.requests id).status = Status.created
    · by_cases h3 : b = false
      · simp [h1, h2, h3] at h
      · have hb : b = true := by
          cases b
          · exact absurd rfl h3
          · rfl
        simp only [h1, h2, hb] at h
        simp at h
        exact ⟨h1, h2, hb, h.symm⟩
    · simp [h1, h2] at h
  · simp [h1] at h

theorem cancel_ok_dest (s : LedgerState) (c id : Nat) (reason : String) (b : Bool)
    (p : LedgerState × List Transfer) (h : cancelRequest s c id reason b = .ok p) :
    c = s.deployerOperator ∧ (s.requests id).status = Status.created ∧
    p = (setRequest s id { s.requests id with status := Status.cancelled },
         if (s.requests id).amountPaid = 0 then []
         else [{ recipient := (s.requests id).buyerOperator,
                 amount := (s.requests id).amountPaid }]) := by
  unfold cancelRequest at h
  by_cases h1 : c = s.deployerOperator
  · by_cases h2 : (s.requests id).status = Status.created
    · by_cases h3 : 0 < (s.requests id).amountPaid ∧ b = false
      · simp [h1, h2, h3] at h
      · simp only [h1, h2, h3] at h
        simp at h
        exact ⟨h1, h2, h.symm⟩
    · simp [h1, h2] at h
  · simp [h1] at h

/-! Step lemmas for applyOp. -/

theorem confirm_stateConflict (s : LedgerState) (caller id : Nat) (b : Bool)
    (hc : caller = s.deployerOperator)
    (hst : (s.requests id).status ≠ Status.created) :
    confirmRequest s caller id b = .error .stateConflict := by
  simp [confirmRequest, hc, hst]

theorem cancel_stateConflict (s : LedgerState) (caller id : Nat)
    (reason : String) (b : Bool)
    (hc : caller = s.deployerOperator)
    (hst : (s.requests id).status ≠ Status.created) :
    cancelRequest s caller id reason b = .error .stateConflict := by
  simp [cancelRequest, hc, hst]

theorem confirm_error_of_not_created (s : LedgerState) (caller id : Nat)
    (b : Bool) (hst : (s.requests id).status ≠ Status.created) :
    ∃ e, confirmRequest s caller id b = .error e := by
  by_cases hc : caller = s.deployerOperator
  · exact ⟨.stateConflict, confirm_stateConflict s caller id b hc hst⟩
  · exact ⟨.unauthorized, by simp [confirmRequest, hc]⟩

theorem cancel_error_of_not_created (s : LedgerState) (caller id : Nat)
    (reason : String) (b : Bool)
    (hst : (s.requests id).status ≠ Status.created) :
    ∃ e, cancelRequest s caller id reason b = .error e := by
  by_cases hc : caller = s.deployerOperator
  · exact ⟨.stateConflict, cancel_stateConflict s caller id reason b hc hst⟩
  · exact ⟨.unauthorized, by simp [cancelRequest, hc]⟩

theorem applyOp_confirm_error (s : LedgerState) (c id : Nat) (b : Bool)
    (h : ∃ e, confirmRequest s c id b = .error e) :
    applyOp s (Op.confirm c id b) = s := by
  rcases h with ⟨e, he⟩
  simp [applyOp, he]

theorem applyOp_cancel_error (s : LedgerState) (c id : Nat) (r : String) (b : Bool)
    (h : ∃ e, cancelRequest s c id r b = .error e) :
    applyOp s (Op.cancel c id r b) = s := by
  rcases h with ⟨e, he⟩
  simp [applyOp, he]

/-- No transaction modifies an allocated slot that already left Created. -/
theorem allocated_stable (s : LedgerState) (op : Op) (id : Nat)
    (hid : id < s.nextRequestId)
    (hst : (s.requests id).status ≠ Status.created) :
    (applyOp s op).requests id = s.requests id := by
  cases op with
  | create b u d od v t =>
    cases h : createRequest s b u d od v t with
    | ok p =>
      rw [create_ok_dest s b u d od v t p h] at h
      simp only [applyOp, h]
      exact createdState_requests_ne s b u d od v t id (by omega)
    | error e => simp [applyOp, h]
  | confirm c j b =>
    cases h : confirmRequest s c j b with
    | ok p =>
      rcases confirm_ok_dest s c j b p h with ⟨-, hcreated, -, hp⟩
      have hne : id ≠ j := by
        intro hcon
        rw [hcon] at hst
        exact hst hcreated
      rw [hp] at h
      simp only [applyOp, h]
      exact setRequest_requests_ne s j _ id hne
    | error e => simp [applyOp, h]
  | cancel c j r b =>
    cases h : cancelRequest s c j r b with
    | ok p =>
      rcases cancel_ok_dest s c j r b p h with ⟨-, hcreated, hp⟩
      have hne : id ≠ j := by
        intro hcon
        rw [hcon] at hst
        exact hst hcreated
      rw [hp] at h
      simp only [applyOp, h]
      exact setRequest_requests_ne s j _ id hne
    | error e => simp [applyOp, h]

/-- nextRequestId never decreases. -/
theorem applyOp_next_mono (s : LedgerState) (op : Op) :
    s.nextRequestId ≤ (applyOp s op).nextRequestId := by
  cases op with
  | create b u d od v t =>
    cases h : createRequest s b u d od v t with
    | ok p =>
      rw [create_ok_dest s b u d od v t p h] at h
      simp [applyOp, h, createdState]
    | error e => simp [applyOp, h]
  | confirm c j b =>
    cases h : confirmRequest s c j b with
    | ok p =>
      rcases confirm_ok_dest s c j b p h with ⟨-, -, -, hp⟩
      rw [hp] at h
      simp [applyOp, h, setRequest_nextRequestId]
    | error e => simp [applyOp, h]
  | cancel c j r b =>
    cases h : cancelRequest s c j r b with
    | ok p =>
      rcases cancel_ok_dest s c j r b p h with ⟨-, -, hp⟩
      rw [hp] at h
      simp [applyOp, h, setRequest_nextRequestId]
    | error e => simp [applyOp, h]

/-- A slot that changes status away from Created does so through a confirm
(to Confirmed) or a cancel (to Cancelled) targeting exactly that id. -/
theorem created_transitions (s : LedgerState) (op : Op) (j : Nat)
    (hpre : (s.requests j).status = Status.created)
    (hpost : ((applyOp s op).requests j).status ≠ Status.created) :
    (∃ c b2, op = Op.confirm c j b2 ∧
      ((applyOp s op).requests j).status = Status.confirmed) ∨
    (∃ c r b2, op = Op.cancel c j r b2 ∧
      ((applyOp s op).requests j).status = Status.cancelled) := by
  cases op with
  | create b u d od v t =>
    exfalso
    cases h : createRequest s b u d od v t with
    | ok p =>
      rw [create_ok_dest s b u d od v t p h] at h
      by_cases hj : j = s.nextRequestId
      · refine hpost ?_
        simp only [applyOp, h]
        rw [hj, createdState_requests_self]
        rfl
      · refine hpost ?_
        simp only [applyOp, h]
        rw [createdState_requests_ne s b u d od v t j hj]
        exact hpre
    | error e =>
      refine hpost ?_
      simp only [applyOp, h]
      exact hpre
  | confirm c i b =>
    cases h : confirmRequest s c i b with
    | ok p =>
      rcases confirm_ok_dest s c i b p h with ⟨-, -, -, hp⟩
      rw [hp] at h
      by_cases hj : j = i
      · left
        refine ⟨c, b, by rw [hj], ?_⟩
        simp only [applyOp, h]
        rw [hj, setRequest_requests_self]
      · exfalso
        refine hpost ?_
        simp only [applyOp, h]
        rw [setRequest_requests_ne s i _ j hj]
        exact hpre
    | error e =>
      exfalso
      refine hpost ?_
      simp only [applyOp, h]
      exact hpre
  | cancel c i r b =>
    cases h : cancelRequest s c i r b with
    | ok p =>
      rcases cancel_ok_dest s c i r b p h with ⟨-, -, hp⟩
      rw [hp] at h
      by_cases hj : j = i
      · right
        refine ⟨c, r, b, by rw [hj], ?_⟩
        simp only [applyOp, h]
        rw [hj, setRequest_requests_self]
      · exfalso
        refine hpost ?_
        simp only [applyOp, h]
        rw [setRequest_requests_ne s i _ j hj]
        exact hpre
    | error e =>
      exfalso
      refine hpost ?_
      simp only [applyOp, h]
      exact hpre

/-! Release counting: an allocated request leaves Created at most once. -/

theorem releaseCount_zero (s : LedgerState) (id : Nat) (ops : List Op)
    (hid : id < s.nextRequestId)
    (hst : (s.requests id).status ≠ Status.created) :
    releaseCount s id ops = 0 := by
  induction ops generalizing s with
  | nil => rfl
  | cons op rest ih =>
    have hstable := allocated_stable s op id hid hst
    have hnext := applyOp_next_mono s op
    have hst2 : ((applyOp s op).requests id).status ≠ Status.created := by
      rw [hstable]; exact hst
    simp only [releaseCount, if_neg (by tauto : ¬ ((s.requests id).status = Status.created ∧
      ((applyOp s op).requests id).status ≠ Status.created)), Nat.zero_add]
    exact ih (applyOp s op) (by omega) hst2

theorem releaseCount_le_one (s : LedgerState) (id : Nat) (ops : List Op)
    (hid : id < s.nextRequestId) :
    releaseCount s id ops ≤ 1 := by
  induction ops generalizing s with
  | nil => simp [releaseCount]
  | cons op rest ih =>
    have hnext := applyOp_next_mono s op
    by_cases hpre : (s.requests id).status = Status.created
    · by_cases hpost : ((applyOp s op).requests id).status = Status.created
      · simp only [releaseCount, if_neg (by tauto : ¬ ((s.requests id).status = Status.created ∧
          ((applyOp s op).requests id).status ≠ Status.created)), Nat.zero_add]
        exact ih (applyOp s op) (by omega)
      · have h0 := releaseCount_zero (applyOp s op) id rest (by omega) hpost
        simp [releaseCount, hpre, hpost, h0]
    · have h0 := releaseCount_zero s id (op :: rest) hid hpre
      omega

/-- A ledger holding one real request (id 0, escrow 0.00012 ether, buyer 7)
still in status Created. -/
def examplePending : LedgerState :=
  applyOp (initialState 1) (Op.create 7 1 1 0 120000000000000 0)

/-- The same ledger after the owner confirmed request 0. -/
def exampleConfirmed : LedgerState :=
  applyOp examplePending (Op.confirm 1 0 true)

/-- Claim C1 (corrected): on a request whose status is Confirmed or Cancelled,
confirmRequest and cancelRequest always fail — with the state-conflict error
when called by the owner (a non-owner fails with the authorization error
instead) — and the reverted transaction leaves the entire ledger state
unchanged; no operation transitions an allocated request (id < nextRequestId)
out of Confirmed or Cancelled; and the only status transitions away from
Created are to Confirmed (by a confirm of that id) or to Cancelled (by a
cancel of that id).  The frozen claim's unrestricted "no operation ever
transitions a request out of Confirmed or Cancelled" is false for the
terminal record a ghost confirm/cancel leaves at an unallocated id: a later
createRequest overwrites that slot back to Created (see the
counterexample). -/
theorem terminal_no_exit_allocated (s : LedgerState) (caller id : Nat)
    (reason : String) (b : Bool) (op : Op)
    (hterm : (s.requests id).status = Status.confirmed ∨
             (s.requests id).status = Status.cancelled) :
    (∃ e, confirmRequest s caller id b = .error e) ∧
    (∃ e, cancelRequest s caller id reason b = .error e) ∧
    applyOp s (Op.confirm caller id b) = s ∧
    applyOp s (Op.cancel caller id reason b) = s ∧
    (caller = s.deployerOperator →
      confirmRequest s caller id b = .error .stateConflict ∧
      cancelRequest s caller id reason b = .error .stateConflict) ∧
    (id < s.nextRequestId → (applyOp s op).requests id = s.requests id) ∧
    (∀ j, (s.requests j).status = Status.created →
      ((applyOp s op).requests j).status ≠ Status.created →
      (∃ c b2, op = Op.confirm c j b2 ∧
        ((applyOp s op).requests j).status = Status.confirmed) ∨
      (∃ c r b2, op = Op.cancel c j r b2 ∧
        ((applyOp s op).requests j).status = Status.cancelled)) := by
  have hst : (s.requests id).status ≠ Status.created := by
    rcases hterm with h | h <;> rw [h] <;> intro hcon <;> exact Status.noConfusion hcon
  refine ⟨confirm_error_of_not_created s caller id b hst,
         cancel_error_of_not_created s caller id reason b hst,
         applyOp_confirm_error s caller id b
           (confirm_error_of_not_created s caller id b hst),
         applyOp_cancel_error s caller id reason b
           (cancel_error_of_not_created s caller id reason b hst),
         fun hc => ⟨confirm_stateConflict s caller id b hc hst,
                    cancel_stateConflict s caller id reason b hc hst⟩,
         fun hid => allocated_stable s op id hid hst,
         fun j hpre hpost => created_transitions s op j hpre hpost⟩

theorem terminal_no_exit_allocated_witness :
    confirmRequest exampleConfirmed 1 0 true = .error .stateConflict ∧
    cancelRequest exampleConfirmed 1 0 "again" true = .error .stateConflict ∧
    applyOp exampleConfirmed (Op.cancel 1 0 "again" true) = exampleConfirmed ∧
    (applyOp exampleConfirmed (Op.create 7 1 1 0 120000000000000 0)).requests 0
      = exampleConfirmed.requests 0 := by
  have h := terminal_no_exit_allocated exampleConfirmed 1 0 "again" true
    (Op.create 7 1 1 0 120000000000000 0) (Or.inl (by decide))
  exact ⟨(h.2.2.2.2.1 (by decide)).1, (h.2.2.2.2.1 (by decide)).2,
         h.2.2.2.1, h.2.2.2.2.2.1 (by decide)⟩

/-- Claim C1 counterexample: starting from a fresh ledger, the owner confirms
the never-created request 0 (which succeeds, leaving a Confirmed record at an
unallocated id); the next createRequest assigns id 0 and overwrites that
record, transitioning its status from Confirmed back to Created.  This
refutes the frozen claim's "no operation ever transitions a request out of
Confirmed or Cancelled". -/
theorem ghost_confirm_overwritten_counterexample :
    ((applyOp (initialState 1) (Op.confirm 1 0 true)).requests 0).status
      = Status.confirmed ∧
    ((applyOp (applyOp (initialState 1) (Op.confirm 1 0 true))
        (Op.create 9 0 0 0 0 0)).requests 0).status = Status.created := by
  constructor <;> decide

/-- Claim C2 (confirmed): with the owner as caller, on a request still in
status Created: a confirm whose payment call is accepted succeeds and performs
exactly one transfer, of the full escrow, to the ledger owner, at the very
step the status becomes Confirmed; a cancel whose refund call is accepted
succeeds and refunds the full escrow to the requester (no transfer at all for
a zero escrow), at the step the status becomes Cancelled; a rejected payment
or refund call makes the whole operation fail with the transfer-failed error
and leaves the entire ledger state unchanged; any transaction that performs a
transfer at all is a confirm or cancel moving some request out of Created and
paying its full escrow to exactly one party; and over any sequence of
transactions an allocated request leaves Created at most once. -/
theorem escrow_paid_once_on_leaving_created (s : LedgerState) (caller id : Nat)
    (reason : String)
    (hcaller : caller = s.deployerOperator)
    (hst : (s.requests id).status = Status.created) :
    confirmRequest s caller id true =
      .ok (setRequest s id { s.requests id with status := Status.confirmed },
           [{ recipient := s.deployerOperator,
              amount := (s.requests id).amountPaid }]) ∧
    cancelRequest s caller id reason true =
      .ok (setRequest s id { s.requests id with status := Status.cancelled },
           if (s.requests id).amountPaid = 0 then []
           else [{ recipient := (s.requests id).buyerOperator,
                   amount := (s.requests id).amountPaid }]) ∧
    (confirmRequest s caller id false = .error .transferFailed ∧
      applyOp s (Op.confirm caller id false) = s) ∧
    (0 < (s.requests id).amountPaid →
      cancelRequest s caller id reason false = .error .transferFailed ∧
      applyOp s (Op.cancel caller id reason false) = s) ∧
    (∀ op : Op, opTransfers s op ≠ [] →
      ∃ j, (s.requests j).status = Status.created ∧
        ((applyOp s op).requests j).status ≠ Status.created ∧
        ((opTransfers s op =
            [Transfer.mk s.deployerOperator (s.requests j).amountPaid] ∧
          ((applyOp s op).requests j).status = Status.confirmed) ∨
         (opTransfers s op =
            [Transfer.mk (s.requests j).buyerOperator (s.requests j).amountPaid] ∧
          ((applyOp s op).requests j).status = Status.cancelled))) ∧
    (∀ ops : List Op, id < s.nextRequestId → releaseCount s id ops ≤ 1) := by
  refine ⟨confirm_ok_eq s caller id hcaller hst,
         cancel_ok_eq s caller id reason true hcaller hst (Or.inr rfl),
         ⟨by simp [confirmRequest, hcaller, hst], ?_⟩, fun hpos => ⟨?_, ?_⟩,
         ?_, fun ops hid => releaseCount_le_one s id ops hid⟩
  · exact applyOp_confirm_error s caller id false
      ⟨.transferFailed, by simp [confirmRequest, hcaller, hst]⟩
  · simp [cancelRequest, hcaller, hst, hpos]
  · exact applyOp_cancel_error s caller id reason false
      ⟨.transferFailed, by simp [cancelRequest, hcaller, hst, hpos]⟩
  · intro op hne
    cases op with
    | create b u d od v t => exact absurd rfl hne
    | confirm c j b =>
      cases h : confirmRequest s c j b with
      | ok p =>
        rcases confirm_ok_dest s c j b p h with ⟨-, hcreated, -, hp⟩
        rw [hp] at h
        refine ⟨j, hcreated, ?_, ?_⟩
        · simp only [applyOp, h, setRequest_requests_self]
          intro hcon
          exact Status.noConfusion hcon
        · left
          constructor
          · simp only [opTransfers, h]
          · simp only [applyOp, h, setRequest_requests_self]
      | error e =>
        exact absurd (by simp only [opTransfers, h]) hne
    | cancel c j r b =>
      cases h : cancelRequest s c j r b with
      | ok p =>
        rcases cancel_ok_dest s c j r b p h with ⟨-, hcreated, hp⟩
        by_cases hz : (s.requests j).amountPaid = 0
        · rw [hp] at h
          refine absurd ?_ hne
          simp only [opTransfers, h, hz, if_pos]
        · rw [hp] at h
          refine ⟨j, hcreated, ?_, ?_⟩
          · simp only [applyOp, h, setRequest_requests_self]
            intro hcon
            exact Status.noConfusion hcon
          · right
            constructor
            · simp [opTransfers, h, hz]
            · simp only [applyOp, h, setRequest_requests_self]
      | error e =>
        exact absurd (by simp only [opTransfers, h]) hne

theorem escrow_paid_once_on_leaving_created_witness :
    confirmRequest examplePending 1 0 true =
      .ok (setRequest examplePending 0
             { examplePending.requests 0 with status := Status.confirmed },
           [{ recipient := examplePending.deployerOperator,
              amount := (examplePending.requests 0).amountPaid }]) ∧
    (confirmRequest examplePending 1 0 false = .error .transferFailed ∧
      applyOp examplePending (Op.confirm 1 0 false) = examplePending) ∧
    releaseCount examplePending 0 [Op.confirm 1 0 true, Op.confirm 1 0 true] ≤ 1 := by
  have h := escrow_paid_once_on_leaving_created examplePending 1 0 "why"
    (by decide) (by decide)
  exact ⟨h.1, h.2.2.1,
         h.2.2.2.2.2 [Op.confirm 1 0 true, Op.confirm 1 0 true] (by decide)⟩

/-! Reachability invariant for the status views: allocated slots carry their
own id (createRequest stores id := id and confirm/cancel keep it). -/

theorem ids_assigned_initial (d : Nat) : IdsAssigned (initialState d) := by
  intro i hi
  exact absurd hi (Nat.not_lt_zero i)

theorem ids_assigned_applyOp (s : LedgerState) (op : Op)
    (h : IdsAssigned s) : IdsAssigned (applyOp s op) := by
  cases op with
  | create b u d od v t =>
    cases hc : createRequest s b u d od v t with
    | ok p =>
      rw [create_ok_dest s b u d od v t p hc] at hc
      simp only [applyOp, hc]
      intro i hi
      have hi2 : i < s.nextRequestId + 1 := hi
      by_cases hij : i = s.nextRequestId
      · rw [hij, createdState_requests_self]
        rfl
      · rw [createdState_requests_ne s b u d od v t i hij]
        exact h i (by omega)
    | error e =>
      simp only [applyOp, hc]
      exact h
  | confirm c j b =>
    cases hc : confirmRequest s c j b with
    | ok p =>
      rcases confirm_ok_dest s c j b p hc with ⟨-, -, -, hp⟩
      rw [hp] at hc
      simp only [applyOp, hc]
      intro i hi
      have hi2 : i < s.nextRequestId := hi
      by_cases hij : i = j
      · rw [hij, setRequest_requests_self]
        have := h i hi2
        rw [hij] at this
        exact this
      · rw [setRequest_requests_ne s j _ i hij]
        exact h i hi2
    | error e =>
      simp only [applyOp, hc]
      exact h
  | cancel c j r b =>
    cases hc : cancelRequest s c j r b with
    | ok p =>
      rcases cancel_ok_dest s c j r b p hc with ⟨-, -, hp⟩
      rw [hp] at hc
      simp only [applyOp, hc]
      intro i hi
      have hi2 : i < s.nextRequestId := hi
      by_cases hij : i = j
      · rw [hij, setRequest_requests_self]
        have := h i hi2
        rw [hij] at this
        exact this
      · rw [setRequest_requests_ne s j _ i hij]
        exact h i hi2
    | error e =>
      simp only [applyOp, hc]
      exact h

theorem ids_assigned_run (d : Nat) (ops : List Op) :
    IdsAssigned (run (initialState d) ops) := by
  suffices hgen : ∀ s, IdsAssigned s → IdsAssigned (run s ops) from
    hgen (initialState d) (ids_assigned_initial d)
  induction ops with
  | nil => exact fun s hs => hs
  | cons op rest ih =>
    intro s hs
    exact ih (applyOp s op) (ids_assigned_applyOp s op hs)

/-! Partition and ordering of the status views. -/

theorem mem_listByStatus (s : LedgerState) (st : Status) (id : Nat)
    (hid : id < s.nextRequestId) :
    s.requests id ∈ listByStatus s st ↔ (s.requests id).status = st := by
  simp only [listByStatus, List.mem_filter, List.mem_map, List.mem_range,
    decide_eq_true_eq]
  constructor
  · exact fun h => h.2
  · exact fun h => ⟨⟨id, hid, rfl⟩, h⟩

theorem filter_status_partition (l : List Request) :
    (l.filter fun r => decide (r.status = Status.created)).length +
    (l.filter fun r => decide (r.status = Status.confirmed)).length +
    (l.filter fun r => decide (r.status = Status.cancelled)).length = l.length := by
  induction l with
  | nil => rfl
  | cons a t ih =>
    cases ha : a.status <;> simp [List.filter_cons, ha] <;> omega

theorem listByStatus_pairwise (s : LedgerState) (st : Status)
    (h : IdsAssigned s) :
    (listByStatus s st).Pairwise fun a b => a.id < b.id := by
  have hbase : ((List.range s.nextRequestId).map s.requests).Pairwise
      fun a b => a.id < b.id := by
    rw [List.pairwise_map]
    have h0 : (List.range s.nextRequestId).Pairwise (· < ·) :=
      List.pairwise_lt_range s.nextRequestId
    refine List.Pairwise.imp_of_mem ?_ h0
    intro a b ha hb hab
    rw [h a (List.mem_range.mp ha), h b (List.mem_range.mp hb)]
    exact hab
  exact List.Pairwise.sublist (List.filter_sublist _) hbase

/-- Claim C4 (confirmed): in every reachable ledger state the three status
views partition the created requests exactly — each request with
id < nextRequestId is a member of the view of its own status and of no other,
the three view lengths sum to the total number of allocated ids — and every
view is sorted by strictly ascending request id (hence duplicate-free), a
property of the state alone and therefore independent of the order in which
confirmations and cancellations occurred. -/
theorem listByStatus_partition_ordered (s : LedgerState)
    (hreach : ∃ deployer ops, s = run (initialState deployer) ops) :
    (∀ id, id < s.nextRequestId →
      ((s.requests id ∈ listByStatus s Status.created ↔
         (s.requests id).status = Status.created) ∧
       (s.requests id ∈ listByStatus s Status.confirmed ↔
         (s.requests id).status = Status.confirmed) ∧
       (s.requests id ∈ listByStatus s Status.cancelled ↔
         (s.requests id).status = Status.cancelled))) ∧
    (listByStatus s Status.created).length +
      (listByStatus s Status.confirmed).length +
      (listByStatus s Status.cancelled).length = s.nextRequestId ∧
    (∀ st, (listByStatus s st).Pairwise fun a b => a.id < b.id) ∧
    (∀ st, (listByStatus s st).Nodup) := by
  obtain ⟨d, ops, rfl⟩ := hreach
  have hids : IdsAssigned (run (initialState d) ops) := ids_assigned_run d ops
  refine ⟨?_, ?_, ?_, ?_⟩
  · intro id hid
    exact ⟨mem_listByStatus _ Status.created id hid,
           mem_listByStatus _ Status.confirmed id hid,
           mem_listByStatus _ Status.cancelled id hid⟩
  · have hlen := filter_status_partition
      ((List.range (run (initialState d) ops).nextRequestId).map
        (run (initialState d) ops).requests)
    simpa [listByStatus] using hlen
  · exact fun st => listByStatus_pairwise _ st hids
  · intro st
    refine List.Pairwise.imp ?_ (listByStatus_pairwise _ st hids)
    intro a b hab he
    rw [he] at hab
    exact absurd hab (lt_irrefl b.id)

theorem listByStatus_partition_ordered_witness :
    (examplePending.requests 0 ∈ listByStatus examplePending Status.created ↔
      (examplePending.requests 0).status = Status.created) ∧
    (listByStatus examplePending Status.created).length +
      (listByStatus examplePending Status.confirmed).length +
      (listByStatus examplePending Status.cancelled).length =
      examplePending.nextRequestId ∧
    (listByStatus examplePending Status.created).Pairwise
      (fun a b => a.id < b.id) := by
  have h := listByStatus_partition_ordered examplePending
    ⟨1, [Op.create 7 1 1 0 120000000000000 0], rfl⟩
  exact ⟨(h.1 0 (by decide)).1, h.2.1, h.2.2.1 Status.created⟩

/-! The sync bridge: the admin panel's fetchWithRetry helper and its
POST /api/confirm handler, with the middleware request store as the delivery
target.  Attempt outcomes are a function from attempt index to Bool (true =
the fetch resolved with an ok response). -/

/-- Middleware request-tracking states (middleware/docs/README.md). -/
inductive TrackedState
  | created
  | pending
  | accepted
  | rejected
  | completed
deriving DecidableEq

/-- The middleware request store, keyed by settlement reference. -/
abbrev Store := Nat → Option TrackedState

/-- Modelled from the spec: the middleware PATCH
`/api/request/<tx_hash>/<state>` endpoint (the middleware source is not part
of src/, only its docs) records the delivered state for the settlement
reference. -/
def applyDelivery (store : Store) (ref : Nat) (st : TrackedState) : Store :=
  Function.update store ref (some st)

/-- Observable outcome of fetchWithRetry: whether some attempt got an ok
response, how many attempts were made, and the backoff delays (in ms) slept
between attempts, in order. -/
structure RetryResult where
  delivered : Bool
  attempts : Nat
  delays : List Nat
deriving DecidableEq

/-- The loop of fetchWithRetry (panel-admin server): for i from 0, attempt
delivery; an ok response returns; a failure on the last allowed attempt
(i = retries - 1) rethrows immediately; any other failure sleeps
2^i * 1000 ms and retries.  The first argument of the recursion is the
remaining fuel retries - i, making it structural. -/
def retryGo (outcome : Nat → Bool) (retries : Nat) : Nat → Nat → RetryResult
  | 0, i => ⟨false, i, []⟩
  | fuel + 1, i =>
    if outcome i then ⟨true, i + 1, []⟩
    else if i = retries - 1 then ⟨false, i + 1, []⟩
    else
      let res := retryGo outcome retries fuel (i + 1)
      ⟨res.delivered, res.attempts, 2 ^ i * 1000 :: res.delays⟩

/-- fetchWithRetry(url, options, retries = 3) of the panel-admin server. -/
def fetchWithRetry (outcome : Nat → Bool) (retries : Nat) : RetryResult :=
  retryGo outcome retries retries 0

/-- HTTP response of the admin-panel confirm endpoint. -/
inductive HandlerResult
  | ok (txHash : Nat) (message : String)
  | fail (e : CError)
deriving DecidableEq

/-- Everything the confirm endpoint leaves behind: the ledger, the middleware
store, whether a sync failure was logged, and the HTTP response. -/
structure ConfirmOutcome where
  ledger : LedgerState
  store : Store
  loggedSyncFailure : Bool
  response : HandlerResult

/-- The success message of the confirm endpoint. -/
def confirmMessage : String := "Request confirmed"

/-- The POST /api/confirm handler of the admin panel: confirm on the ledger
(a revert becomes an error response and nothing else happens); on success,
deliver the accepted state for the settlement reference (the transaction
hash) to the middleware store through fetchWithRetry with 3 attempts; when
every attempt fails, the error is caught and logged (console.error) and the
response still reports the successful ledger confirmation with its
transaction hash. -/
def confirmHandler (s : LedgerState) (store : Store)
    (caller requestId txHash : Nat) (sendOk : Bool) (outcome : Nat → Bool) :
    ConfirmOutcome :=
  match confirmRequest s caller requestId sendOk with
  | .error e => ⟨s, store, false, .fail e⟩
  | .ok p =>
    let r := fetchWithRetry outcome 3
    if r.delivered then
      ⟨p.1, applyDelivery store txHash TrackedState.accepted, false,
       .ok txHash confirmMessage⟩
    else
      ⟨p.1, store, true, .ok txHash confirmMessage⟩

/-- With the default 3 retries there are only four possible executions. -/
theorem fetchWithRetry_three_cases (outcome : Nat → Bool) :
    fetchWithRetry outcome 3 = ⟨true, 1, []⟩ ∨
    fetchWithRetry outcome 3 = ⟨true, 2, [1000]⟩ ∨
    fetchWithRetry outcome 3 = ⟨true, 3, [1000, 2000]⟩ ∨
    fetchWithRetry outcome 3 = ⟨false, 3, [1000, 2000]⟩ := by
  cases h0 : outcome 0 <;> cases h1 : outcome 1 <;> cases h2 : outcome 2 <;>
    simp [fetchWithRetry, retryGo, h0, h1, h2]

/-- Claim C6 (confirmed): the sync bridge makes at most 3 delivery attempts,
and the delays it sleeps between attempts are an initial segment of the
doubling backoff schedule 1s, 2s, 4s (with 3 attempts at most the 1s and 2s
delays ever occur, the 4s value being the schedule entry after a third
failure, which rethrows instead); in the fails-twice-then-succeeds scenario
the third attempt delivers after delays of exactly 1s and 2s, the accepted
state is recorded in the request store under the settlement reference, and
the caller of the confirm endpoint receives the plain success response with
no error surfaced. -/
theorem fetchWithRetry_bounded_backoff_delivery (s : LedgerState)
    (store : Store) (caller id ref : Nat)
    (hcaller : caller = s.deployerOperator)
    (hst : (s.requests id).status = Status.created) :
    (∀ outcome : Nat → Bool, (fetchWithRetry outcome 3).attempts ≤ 3 ∧
      ∃ rest, [1000, 2000, 4000] = (fetchWithRetry outcome 3).delays ++ rest) ∧
    fetchWithRetry (fun i => i == 2) 3 = ⟨true, 3, [1000, 2000]⟩ ∧
    (confirmHandler s store caller id ref true (fun i => i == 2)).store ref =
      some TrackedState.accepted ∧
    (confirmHandler s store caller id ref true (fun i => i == 2)).response =
      .ok ref confirmMessage ∧
    (confirmHandler s store caller id ref true (fun i => i == 2)).loggedSyncFailure
      = false ∧
    ((confirmHandler s store caller id ref true
        (fun i => i == 2)).ledger.requests id).status = Status.confirmed := by
  have hconf := confirm_ok_eq s caller id hcaller hst
  have hf : fetchWithRetry (fun i => i == 2) 3 = ⟨true, 3, [1000, 2000]⟩ := by
    decide
  refine ⟨?_, hf, ?_, ?_, ?_, ?_⟩
  · intro outcome
    rcases fetchWithRetry_three_cases outcome with h | h | h | h <;> rw [h]
    · exact ⟨by norm_num, [1000, 2000, 4000], rfl⟩
    · exact ⟨by norm_num, [2000, 4000], rfl⟩
    · exact ⟨by norm_num, [4000], rfl⟩
    · exact ⟨by norm_num, [4000], rfl⟩
  · simp [confirmHandler, hconf, hf, applyDelivery]
  · simp [confirmHandler, hconf, hf]
  · simp [confirmHandler, hconf, hf]
  · simp [confirmHandler, hconf, hf, setRequest_requests_self]

theorem fetchWithRetry_bounded_backoff_delivery_witness :
    fetchWithRetry (fun i => i == 2) 3 = ⟨true, 3, [1000, 2000]⟩ ∧
    (confirmHandler examplePending (fun _ => none) 1 0 42 true
      (fun i => i == 2)).store 42 = some TrackedState.accepted ∧
    (confirmHandler examplePending (fun _ => none) 1 0 42 true
      (fun i => i == 2)).response = .ok 42 "Request confirmed" := by
  have h := fetchWithRetry_bounded_backoff_delivery examplePending
    (fun _ => none) 1 0 42 (by decide) (by decide)
  exact ⟨h.2.1, h.2.2.1, h.2.2.2.1⟩

/-- Claim C7 (corrected): when the sync bridge exhausts all 3 attempts, the
failure is logged (loggedSyncFailure, the console.error branch) and the
already-committed ledger confirmation stands — the handler's ledger is
exactly the post-confirm state and the response still reports the successful
ledger operation with its transaction hash — but, contrary to the frozen
claim, the failure is NOT surfaced to the caller: the response carries no
error indication at all (see the counterexample), and the request store is
left untouched. -/
theorem sync_failure_logged_not_rolled_back (s : LedgerState) (store : Store)
    (caller id ref : Nat)
    (hcaller : caller = s.deployerOperator)
    (hst : (s.requests id).status = Status.created) :
    (fetchWithRetry (fun _ => false) 3).delivered = false ∧
    (fetchWithRetry (fun _ => false) 3).attempts = 3 ∧
    (confirmHandler s store caller id ref true
      (fun _ => false)).loggedSyncFailure = true ∧
    (confirmHandler s store caller id ref true (fun _ => false)).response =
      .ok ref confirmMessage ∧
    (confirmHandler s store caller id ref true (fun _ => false)).store = store ∧
    (confirmHandler s store caller id ref true (fun _ => false)).ledger =
      setRequest s id { s.requests id with status := Status.confirmed } ∧
    ((confirmHandler s store caller id ref true
        (fun _ => false)).ledger.requests id).status = Status.confirmed := by
  have hconf := confirm_ok_eq s caller id hcaller hst
  have hf : fetchWithRetry (fun _ => false) 3 = ⟨false, 3, [1000, 2000]⟩ := by
    decide
  refine ⟨by rw [hf], by rw [hf], ?_, ?_, ?_, ?_, ?_⟩ <;>
    simp [confirmHandler, hconf, hf, setRequest_requests_self]

theorem sync_failure_logged_not_rolled_back_witness :
    (confirmHandler examplePending (fun _ => none) 1 0 42 true
      (fun _ => false)).loggedSyncFailure = true ∧
    (confirmHandler examplePending (fun _ => none) 1 0 42 true
      (fun _ => false)).response = .ok 42 "Request confirmed" ∧
    ((confirmHandler examplePending (fun _ => none) 1 0 42 true
        (fun _ => false)).ledger.requests 0).status = Status.confirmed := by
  have h := sync_failure_logged_not_rolled_back examplePending
    (fun _ => none) 1 0 42 (by decide) (by decide)
  exact ⟨h.2.2.1, h.2.2.2.1, h.2.2.2.2.2.2⟩

/-- Claim C7 counterexample: a run of the confirm endpoint in which every
bridge delivery attempt fails produces exactly the same HTTP response as a
run in which delivery succeeds immediately — a plain success carrying the
transaction hash and no error field — so the exhausted-retries failure is
only logged, never surfaced to the caller, refuting the frozen claim's "the
failure is logged and surfaced to the caller". -/
theorem sync_failure_not_surfaced_counterexample :
    (confirmHandler examplePending (fun _ => none) 1 0 42 true
      (fun _ => false)).response =
      (confirmHandler examplePending (fun _ => none) 1 0 42 true
        (fun _ => true)).response ∧
    (confirmHandler examplePending (fun _ => none) 1 0 42 true
      (fun _ => false)).response = HandlerResult.ok 42 "Request confirmed" ∧
    (confirmHandler examplePending (fun _ => none) 1 0 42 true
      (fun _ => false)).loggedSyncFailure = true := by
  exact ⟨rfl, rfl, rfl⟩

end TrueMan
